import Mathlib

/-!
Shallow embedding of the video analyzer in
src/Echelon-Video-Length-Size-Analyzer.py.

Numeric conventions: Python floats are modelled as exact rationals (ℚ).
Every quantity the program manipulates is exact in ℚ: millisecond counts
divided by 1000, byte counts divided by 1e9, and the np.linspace bucket
bounds (numpy pins the final linspace point to the stop value, which the
rational formula reproduces exactly).  The NaN produced by np.mean on an
empty list is modelled as `none : Option ℚ`.  A Python exception escaping
an expression is modelled with `Except`.
-/

namespace Echelon

/-- Exceptions the embedded code can raise: ValueError (int of a NaN or a
non-numeric string, min or max of an empty sequence) and OSError
(os.path.getsize on a vanished or unreadable path). -/
inductive PyError
  | valueError
  | osError
deriving DecidableEq

/-- Environment for one file, supplying the two external observations the
probe makes: the stdout of the mediainfo subprocess (error means
CalledProcessError, line 40) and the byte size from os.path.getsize
(error means OSError, line 53). -/
structure FileMeta where
  mediainfoOutput : Except Unit String
  sizeBytes : Except Unit Nat

/-- Record produced by video_info (line 55): duration in seconds, size in
GB, and the title (basename without extension). -/
structure VideoInfo where
  duration : ℚ
  size : ℚ
  title : String
deriving DecidableEq

deriving instance DecidableEq for Except

/-- Whitespace characters stripped by Python str.strip. -/
def isPySpace (c : Char) : Bool :=
  9 ≤ c.toNat && c.toNat ≤ 13 || c.toNat = 32

/-- Models Python str.strip(): drop whitespace from both ends. -/
def pyStrip (s : String) : String :=
  ⟨((s.data.dropWhile isPySpace).reverse.dropWhile isPySpace).reverse⟩

/-- Reads a nonempty run of decimal digits as a natural number. -/
def digitsOf (cs : List Char) : Option Nat :=
  if cs.isEmpty then none
  else
    cs.foldl
      (fun acc c =>
        match acc with
        | none => none
        | some n =>
          if 48 ≤ c.toNat && c.toNat ≤ 57 then some (n * 10 + (c.toNat - 48))
          else none)
      (some 0)

/-- Models Python int(str) on the strings mediainfo emits: an optional
sign followed by decimal digits; anything else raises ValueError,
modelled as none. -/
def parsePyInt (s : String) : Option Int :=
  match s.data with
  | [] => none
  | '-' :: rest => (digitsOf rest).map (fun n => -(n : Int))
  | '+' :: rest => (digitsOf rest).map (fun n => (n : Int))
  | cs => (digitsOf cs).map (fun n => (n : Int))

/-- Models mediainfo_duration (lines 35-44): on CalledProcessError the
duration defaults to 0 (line 42); otherwise int(output.strip()) / 1000
(line 39), where a non-numeric output raises ValueError, which this
function does NOT catch. -/
def mediainfo_duration (m : FileMeta) : Except PyError ℚ :=
  match m.mediainfoOutput with
  | Except.error _ => Except.ok 0
  | Except.ok out =>
    match parsePyInt (pyStrip out) with
    | some n => Except.ok ((n : ℚ) / 1000)
    | none => Except.error PyError.valueError

/-- Duration stored by video_info (lines 48-51): any exception escaping
mediainfo_duration is caught and the duration set to 0. -/
def durationOf (m : FileMeta) : ℚ :=
  match mediainfo_duration m with
  | Except.ok d => d
  | Except.error _ => 0

/-- True when the probe failed to produce a numeric duration, in either of
the two ways the source allows: mediainfo exits nonzero
(CalledProcessError), or its output is not a parseable integer. -/
def probeFailed (m : FileMeta) : Bool :=
  match m.mediainfoOutput with
  | Except.error _ => true
  | Except.ok out => (parsePyInt (pyStrip out)).isNone

/-- Models os.path.basename: the part of the path after the last slash. -/
def basenameOf (p : String) : String :=
  ⟨(p.data.reverse.takeWhile (fun c => c != '/')).reverse⟩

/-- Index of the last dot in the character list, if any. -/
def lastDotIndex (cs : List Char) : Option Nat :=
  (List.range cs.length).foldl
    (fun acc i => if cs.getD i ' ' = '.' then some i else acc) none

/-- Models os.path.splitext(...)[0] on a basename: cut at the last dot,
provided some character strictly before that dot is not itself a dot
(so dotfiles such as .bashrc keep their full name). -/
def splitextRoot (s : String) : String :=
  match lastDotIndex s.data with
  | none => s
  | some i =>
    if (List.range i).any (fun j => s.data.getD j '.' != '.') then
      ⟨s.data.take i⟩
    else s

/-- Title extracted at line 55: os.path.splitext(os.path.basename(f))[0]. -/
def titleOf (p : String) : String :=
  splitextRoot (basenameOf p)

/-- Models video_info (lines 46-55).  The try block wraps only the
duration probe, so a duration failure is absorbed as 0, while a failure
of os.path.getsize (line 53, outside the try) escapes the function as an
OSError. -/
def video_info (m : FileMeta) (filename : String) : Except PyError VideoInfo :=
  match m.sizeBytes with
  | Except.error _ => Except.error PyError.osError
  | Except.ok b => Except.ok ⟨durationOf m, (b : ℚ) / 1000000000, titleOf filename⟩

/-- The module-level extension allow-list (line 33). -/
def VALID_EXTENSIONS : List String :=
  [".mp4", ".avi", ".mkv", ".mov", ".wmv"]

/-- Models str.endswith for a single suffix. -/
def strEndsWith (s suffix : String) : Bool :=
  s.data.reverse.take suffix.length == suffix.data.reverse

/-- Models file.endswith(tuple(VALID_EXTENSIONS)) at line 67. -/
def endsWithValidExt (file : String) : Bool :=
  VALID_EXTENSIONS.any (fun e => strEndsWith file e)

/-- One (root, files) pair yielded by os.walk.  A root directory that does
not exist or is unreadable makes os.walk (with its default onerror=None)
yield nothing at all, so such a run is modelled by the empty list of
entries. -/
structure WalkEntry where
  root : String
  files : List String

/-- Models the walk loop (lines 65-69): collect os.path.join(root, file)
for every file matching the extension allow-list, and count one directory
per walk entry. -/
def collectVideoFiles (walk : List WalkEntry) : List String × Nat :=
  (walk.foldl
    (fun acc e =>
      acc ++ (e.files.filter endsWithValidExt).map (fun f => e.root ++ "/" ++ f))
    [],
   walk.length)

/-- Models lines 71-72: executor.map applies video_info to every file and
list(...) re-raises the first stored exception in input order, which the
Except monad's mapM reproduces. -/
def dispatchProbe (meta : String → FileMeta) (files : List String) :
    Except PyError (List VideoInfo) :=
  files.mapM (fun f => video_info (meta f) f)

/-- Models the filter at line 75: keep a record unless BOTH its duration
and its size are zero. -/
def usable (l : List VideoInfo) : List VideoInfo :=
  l.filter (fun info => !(decide (info.duration = 0 ∧ info.size = 0)))

/-- Models np.mean: none on an empty list (numpy returns NaN there),
otherwise the arithmetic mean. -/
def meanQ (l : List ℚ) : Option ℚ :=
  if l.isEmpty then none else some (l.sum / (l.length : ℚ))

/-- Models Python min(list): ValueError on an empty sequence. -/
def listMin : List ℚ → Except PyError ℚ
  | [] => Except.error PyError.valueError
  | x :: xs => Except.ok (xs.foldl min x)

/-- Models Python max(list): ValueError on an empty sequence. -/
def listMax : List ℚ → Except PyError ℚ
  | [] => Except.error PyError.valueError
  | x :: xs => Except.ok (xs.foldl max x)

/-- Models np.linspace(dmn, dmx, 6) at line 86: the i-th of the six
equally spaced bound points. -/
def bnds (dmn dmx : ℚ) (i : Nat) : ℚ :=
  dmn + i * (dmx - dmn) / 5

/-- Models line 91: the indices of the records whose duration satisfies
bounds[i] <= dur < bounds[i+1].  Note the strict upper comparison is used
for every bucket, the last one included. -/
def bucketIndices (durations : List ℚ) (dmn dmx : ℚ) (i : Nat) : List Nat :=
  ((durations.enum.filter
    (fun p => decide (bnds dmn dmx i ≤ p.2 ∧ p.2 < bnds dmn dmx (i + 1)))).map
    Prod.fst)

/-- Models Python int() on a float: truncation toward zero. -/
def pyInt (q : ℚ) : Int :=
  q.num.tdiv (q.den : Int)

/-- One printed table row (lines 96-99): the three timedelta arguments
after int() truncation, the member count, and the average size (none
models the NaN that an empty bucket produces, which the .2f formatting
would print as the text nan). -/
structure BucketRow where
  lowerTd : Int
  upperTd : Int
  avgDurationTd : Int
  numVideos : Nat
  avgSize : Option ℚ
deriving DecidableEq

/-- Models one iteration of the category loop (lines 90-99).  For an
empty bucket np.mean gives NaN and int(NaN) inside the timedelta call at
line 98 raises ValueError, so the row construction fails. -/
def rowFor (durations sizes : List ℚ) (dmn dmx : ℚ) (i : Nat) :
    Except PyError BucketRow :=
  let idxs := bucketIndices durations dmn dmx i
  match meanQ (idxs.map (fun j => durations.getD j 0)) with
  | none => Except.error PyError.valueError
  | some ad =>
    Except.ok
      ⟨pyInt (bnds dmn dmx i), pyInt (bnds dmn dmx (i + 1)), pyInt ad,
        idxs.length, meanQ (idxs.map (fun j => sizes.getD j 0))⟩

/-- Models sep.join(list): the elements interleaved with the
separator. -/
def joinWith (sep : String) : List String → String
  | [] => ""
  | [x] => x
  | x :: xs => x ++ sep ++ joinWith sep xs

/-- Models Python str.lower restricted to the ASCII range exercised by
the token pattern. -/
def asciiLower (c : Char) : Char :=
  if 65 ≤ c.toNat && c.toNat ≤ 90 then Char.ofNat (c.toNat + 32) else c

/-- Lowercasing applied by CountVectorizer to the document before
tokenization (the source leaves the default lowercase=True in place at
line 113). -/
def asciiLowerStr (s : String) : String :=
  ⟨s.data.map asciiLower⟩

/-- Character class of the token pattern at line 113: an ASCII letter. -/
def isAsciiLetter (c : Char) : Bool :=
  (97 ≤ c.toNat && c.toNat ≤ 122) || (65 ≤ c.toNat && c.toNat ≤ 90)

/-- Splits a character list into the maximal runs of ASCII letters, the
accumulator holding the current run reversed. -/
def asciiRunsAux : List Char → List Char → List String
  | [], acc => if acc.isEmpty then [] else [⟨acc.reverse⟩]
  | c :: cs, acc =>
    if isAsciiLetter c then asciiRunsAux cs (c :: acc)
    else if acc.isEmpty then asciiRunsAux cs []
    else ⟨acc.reverse⟩ :: asciiRunsAux cs []

/-- Models CountVectorizer tokenization at line 113: lowercase the
document (the default), then take the maximal runs matched by the
token pattern of ASCII letters. -/
def tokenize (s : String) : List String :=
  asciiRunsAux (asciiLowerStr s).data []

/-- Adjacent two-token sequences joined by a space, as produced by
ngram_range=(1, 2). -/
def bigrams : List String → List String
  | a :: b :: rest => (a ++ " " ++ b) :: bigrams (b :: rest)
  | _ => []

/-- All countable grams of the document: unigrams then bigrams. -/
def allGrams (s : String) : List String :=
  tokenize s ++ bigrams (tokenize s)

/-- Occurrence count of one gram in the document, as stored in the
counter dict at line 115. -/
def tokenCount (s t : String) : Nat :=
  (allGrams s).count t

/-- Deduplication keeping first occurrences, the insertion order of the
fitted vocabulary. -/
def firstDedup (l : List String) : List String :=
  l.foldl (fun acc w => if acc.contains w then acc else acc ++ [w]) []

/-- Stable insertion of one entry into a count-descending list: an entry
goes before the first entry whose count does not exceed its own, which
preserves the original order on ties exactly as Python's stable sorted
with reverse=True does. -/
def insertByCountDesc (x : String × Nat) :
    List (String × Nat) → List (String × Nat)
  | [] => [x]
  | y :: ys =>
    if y.2 ≤ x.2 then x :: y :: ys else y :: insertByCountDesc x ys

/-- Stable sort by descending count (line 120). -/
def sortByCountDesc : List (String × Nat) → List (String × Nat)
  | [] => []
  | x :: xs => insertByCountDesc x (sortByCountDesc xs)

/-- Models the word-frequency component (lines 105-125): none when the
guard top_n_words > 0 fails, otherwise the top slice of the frequency
table sorted by descending count.  The rendering of the word-cloud image
and of the formatted text block consumes exactly this value, so none
means the component produced nothing at all. -/
def wordStage (titles : String) (top_n : Int) : Option (List (String × Nat)) :=
  if top_n > 0 then
    some
      ((sortByCountDesc
        ((firstDedup (allGrams titles)).map (fun w => (w, tokenCount titles w)))).take
        top_n.toNat)
  else none

/-- Observable outcome of one run of analyze_videos: an exception raised
while collecting the probe results (line 72), an exception raised during
aggregation or table rendering after the size statistics of line 83 were
already printed, or normal completion. -/
inductive RunOutcome
  | dispatchError (e : PyError)
  | aggError (printedAvgSize : Option ℚ) (printedTotalSize : ℚ) (e : PyError)
  | finished (printedAvgSize : Option ℚ) (printedTotalSize : ℚ)
      (rows : List BucketRow) (wordReport : Option (List (String × Nat)))
deriving DecidableEq

/-- Result of one run: the directory and file counts printed at line 82,
and the outcome. -/
structure RunResult where
  dirCount : Nat
  videoCount : Nat
  outcome : RunOutcome
deriving DecidableEq

/-- Models analyze_videos (lines 57-125) end to end on the walk entries
yielded by os.walk and a per-file environment.  Mirrors the evaluation
order of the source: collect files, gather probe results (a stored
exception aborts here), filter the both-zero records, print the size
statistics of line 83, take min and max of the durations (ValueError on
an empty list), build the five table rows in order (stopping at the first
row whose rendering raises), then run the word-frequency component.
The elapsed-time and speed lines (101-103) and the verbose no-stream
count are time or flag dependent output not modelled here. -/
def analyze_videos (walk : List WalkEntry) (meta : String → FileMeta)
    (top_n_words : Int) : RunResult :=
  let fd := collectVideoFiles walk
  let video_files := fd.1
  let dir_count := fd.2
  match dispatchProbe meta video_files with
  | Except.error e => ⟨dir_count, video_files.length, RunOutcome.dispatchError e⟩
  | Except.ok infos =>
    let video_info_list := usable infos
    let durations := video_info_list.map VideoInfo.duration
    let sizes := video_info_list.map VideoInfo.size
    let titles := joinWith (" ") (video_info_list.map VideoInfo.title)
    let printedAvg := meanQ sizes
    let printedTotal := sizes.sum
    match listMin durations with
    | Except.error e =>
      ⟨dir_count, video_files.length, RunOutcome.aggError printedAvg printedTotal e⟩
    | Except.ok dmn =>
      match listMax durations with
      | Except.error e =>
        ⟨dir_count, video_files.length, RunOutcome.aggError printedAvg printedTotal e⟩
      | Except.ok dmx =>
        match (List.range 5).mapM (rowFor durations sizes dmn dmx) with
        | Except.error e =>
          ⟨dir_count, video_files.length, RunOutcome.aggError printedAvg printedTotal e⟩
        | Except.ok rows =>
          ⟨dir_count, video_files.length,
            RunOutcome.finished printedAvg printedTotal rows
              (wordStage titles top_n_words)⟩

/-- Environment in which every external observation fails; used for runs
that discover no files, where it is never consulted. -/
def noMeta : String → FileMeta :=
  fun _ => ⟨Except.error (), Except.error ()⟩

/-- Environment for the three-file scenario of the spec: durations 10 s,
50 s and 100 s with sizes 0.1, 0.2 and 0.3 GB. -/
def demoMeta : String → FileMeta :=
  fun f =>
    if f = "d/a.mp4" then ⟨Except.ok ("10000"), Except.ok 100000000⟩
    else if f = "d/b.mp4" then ⟨Except.ok ("50000"), Except.ok 200000000⟩
    else if f = "d/c.mp4" then ⟨Except.ok ("100000"), Except.ok 300000000⟩
    else ⟨Except.error (), Except.error ()⟩

/-- Environment in which the second file's size lookup raises OSError
while the first file probes normally. -/
def badSizeMeta : String → FileMeta :=
  fun f =>
    if f = "d/a.mp4" then ⟨Except.ok ("10000"), Except.ok 100000000⟩
    else ⟨Except.ok ("50000"), Except.error ()⟩

/-- Probe environment whose mediainfo call fails with
CalledProcessError. -/
def mFail : FileMeta :=
  ⟨Except.error (), Except.error ()⟩

/-- A record with zero duration but nonzero size. -/
def rZeroDur : VideoInfo :=
  ⟨0, 1, "t"⟩

unseal Rat.add Rat.sub Rat.mul Rat.inv

/-- Claim C1: the claim states that the final (fifth) bucket includes the
record whose duration equals the global maximum, and that for durations
[10 s, 50 s, 100 s] the bucket containing 100 s has count 1.  The code
instead applies the half-open test bounds[i] <= dur < bounds[i+1] to
every bucket (line 91), and the sixth linspace point equals the maximum
duration, so the maximum-duration record satisfies no bucket predicate:
with the code's own min and max of 10 and 100 the fifth bucket is
empty. -/
theorem final_bucket_excludes_max :
    listMin [(10 : ℚ), 50, 100] = Except.ok 10 ∧
    listMax [(10 : ℚ), 50, 100] = Except.ok 100 ∧
    bucketIndices [(10 : ℚ), 50, 100] 10 100 4 = [] := by decide

/-- Claim C2: the claim states that the five bucket member counts sum to
the number of usable records.  On the three usable records with durations
[10 s, 50 s, 100 s] the filter keeps all three, yet the bucket counts sum
to 2, because the maximum-duration record falls in no half-open
bucket. -/
theorem bucket_counts_sum_mismatch :
    (usable [⟨10, 1/10, "a"⟩, ⟨50, 1/5, "b"⟩, ⟨100, 3/10, "c"⟩]).length = 3 ∧
    ((List.range 5).map
      (fun i => (bucketIndices [(10 : ℚ), 50, 100] 10 100 i).length)).sum = 2 := by
  decide

/-- Claim C3: the claim states that a run with zero usable records fails
with an explicit EmptyInputError and prints no NaN statistics.  On a walk
finding no video files, the code first prints the average-size line with
np.mean of an empty list, which is NaN (the none below), and then raises
a plain ValueError from min() of an empty sequence at line 86. -/
theorem empty_input_prints_nan_then_value_error :
    analyze_videos [⟨"d", []⟩] noMeta 0 =
      ⟨1, 0, RunOutcome.aggError none 0 PyError.valueError⟩ := by decide

/-- Claim C4: the claim states that an empty bucket's averages are
rendered as N/A and the renderer neither crashes nor prints NaN.  On the
spec's own three-file scenario (durations 10 s, 50 s, 100 s, sizes
0.1, 0.2 and 0.3 GB) the second bucket is empty, np.mean over it is NaN,
and int(NaN) inside the timedelta rendering of line 98 raises ValueError:
the run aborts after printing the global size line (average 0.2 GB,
total 0.6 GB). -/
theorem empty_bucket_crashes_run :
    analyze_videos [⟨"d", ["a.mp4", "b.mp4", "c.mp4"]⟩] demoMeta 0 =
      ⟨1, 3, RunOutcome.aggError (some (1/5)) (3/5) PyError.valueError⟩ := by
  decide

/-- Claim C5: the claim states that a missing or unreadable root
directory makes the walk fail with a FilesystemError and abort the run.
os.walk with its default onerror swallows the error and yields nothing,
which the empty walk below models: the code proceeds with an empty file
list, reports 0 directories and 0 videos, prints a NaN average size, and
only later dies with a ValueError from min() of an empty sequence. -/
theorem missing_root_keeps_running :
    analyze_videos [] noMeta 0 =
      ⟨0, 0, RunOutcome.aggError none 0 PyError.valueError⟩ := by decide

/-- Claim C6: the claim states that a per-file size-lookup failure is
recoverable: the file is skipped, a counter incremented, and the batch
continues.  In the code os.path.getsize sits outside the try block of
video_info, so the OSError is stored by executor.map and re-raised by
list(...) at line 72: one bad file aborts the whole run, discarding the
good first file's result as well. -/
theorem size_failure_aborts_run :
    analyze_videos [⟨"d", ["a.mp4", "b.mp4"]⟩] badSizeMeta 0 =
      ⟨1, 2, RunOutcome.dispatchError PyError.osError⟩ := by decide

/-- Claim C7: the aggregator drops a probed record exactly when both its
duration and its size are zero (line 75), so a record with zero duration
but nonzero size is retained; and a probe failure (mediainfo exiting
nonzero, or emitting something int() rejects) leaves duration 0 instead
of propagating. -/
theorem filter_iff_and_probe_default (l : List VideoInfo) (r : VideoInfo)
    (m : FileMeta) (h : probeFailed m = true) :
    (r ∈ usable l ↔ r ∈ l ∧ ¬(r.duration = 0 ∧ r.size = 0)) ∧
    durationOf m = 0 := by
  constructor
  · simp only [usable, List.mem_filter, Bool.not_eq_eq_eq_not, Bool.not_true,
      decide_eq_false_iff_not]
  · unfold durationOf mediainfo_duration
    unfold probeFailed at h
    cases hm : m.mediainfoOutput with
    | error e => rfl
    | ok s =>
      rw [hm] at h
      simp only [Option.isNone_iff_eq_none] at h
      simp [h]

/-- Witness for C7 at a concrete input: a failing probe yields duration
0, and a record with duration 0 but size 1 GB passes the filter. -/
theorem filter_iff_and_probe_default_witness :
    probeFailed mFail = true ∧
    ((rZeroDur ∈ usable [rZeroDur] ↔
        rZeroDur ∈ [rZeroDur] ∧ ¬(rZeroDur.duration = 0 ∧ rZeroDur.size = 0)) ∧
      durationOf mFail = 0) :=
  ⟨by decide, filter_iff_and_probe_default [rZeroDur] rZeroDur mFail (by decide)⟩

/-- Claim C8 counterexample: the claim states that counting is
case-sensitive and tokens differing only in case are distinct entries.
CountVectorizer keeps its default lowercase=True, so the document is
lowercased before the token pattern runs: the title Action tokenizes to
action, and in the document containing Action and action the lowercase
token is counted twice while the capitalized spelling is not a countable
gram at all. -/
theorem case_fold_merges_tokens :
    tokenize ("Action") = ["action"] ∧
    tokenCount ("Action action") ("action") = 2 ∧
    tokenCount ("Action action") ("Action") = 0 := by decide

/-- Claim C8 as amended: tokens are maximal runs of ASCII letters, but
counting is case-insensitive: the counting of a document depends only on
its lowercased form, so two documents equal up to letter case produce
identical counts for every gram. -/
theorem token_count_case_insensitive (s₁ s₂ t : String)
    (h : asciiLowerStr s₁ = asciiLowerStr s₂) :
    tokenCount s₁ t = tokenCount s₂ t := by
  unfold tokenCount allGrams tokenize
  rw [h]

/-- Witness for the amended C8 at a concrete input: Action and action
lowercase identically and get the same counts. -/
theorem token_count_case_insensitive_witness :
    asciiLowerStr ("Action") = asciiLowerStr ("action") ∧
    tokenCount ("Action") ("action") = tokenCount ("action") ("action") :=
  ⟨by decide, token_count_case_insensitive ("Action") ("action") ("action") (by decide)⟩

/-- Claim C9: top_n equal to 0 disables the word-frequency component
entirely: the guard top_n_words > 0 at line 105 skips the whole block,
so no frequency table, printed listing or word-cloud rendering is
produced, for every titles document. -/
theorem word_component_disabled_at_zero (titles : String) :
    wordStage titles 0 = none := by
  simp [wordStage]

/-- Claim C10: a negative top_n passes the int-typed command-line
interface unvalidated and behaves exactly like 0: the only check the
code performs is the strict positivity guard at line 105, so the
component produces nothing in both cases. -/
theorem negative_topn_like_zero (titles : String) (n : Int) (h : n < 0) :
    wordStage titles n = wordStage titles 0 := by
  have hn : ¬ n > 0 := by omega
  simp [wordStage, hn]

/-- Witness for C10 at the concrete input -1. -/
theorem negative_topn_like_zero_witness :
    ((-1 : Int) < 0) ∧ wordStage ("x") (-1) = wordStage ("x") 0 :=
  ⟨by decide, negative_topn_like_zero ("x") (-1) (by decide)⟩

end Echelon
